import Mathlib

/-!
Shallow embedding of the NewCogno progress and realtime bookkeeping subsystem:
the activity tracker (`CognoTracker.saveActivity` and its helpers in
`frontend/js/activity-tracker.js`), the modules handler scoring path
(`CognoModules.completeActivity` / `calculatePoints`), and the realtime
channel registry (`js/realtime.js`).  JavaScript numbers are modelled as
rationals, `Math.round` as `jsRound`, and the hosted database as explicit
record lists inside a `DB` state.
-/

namespace Cogno

/-- JavaScript `Math.round`: round half away from negative infinity
(`Math.round x = ⌊x + 1/2⌋`). -/
def jsRound (q : ℚ) : ℤ := ⌊q + 1/2⌋

/-- JavaScript `a || b` on an optional numeric `a`: `0` (and a missing value)
is falsy and falls through to `b`. -/
def jsOrQ (a : Option ℚ) (b : ℚ) : ℚ :=
  match a with
  | some v => if v = 0 then b else v
  | none => b

/-- Percentage formula of `CognoTracker.saveActivity` (activity-tracker.js:180):
`Math.min(100, Math.round((score / maxScore) * 100))`. -/
def trackerPercentage (score maxScore : ℚ) : ℤ :=
  min 100 (jsRound (score / maxScore * 100))

/-- Percentage formula of `CognoModules.completeActivity` (part_000:581):
`Math.round((score / maxScore) * 100)` — no upper clamp. -/
def modulesPercentage (score maxScore : ℚ) : ℤ :=
  jsRound (score / maxScore * 100)

/-- `CognoModules.calculatePoints(percentage, duration)` (part_000:633-647):
base points `Math.round(percentage / 10) * 10`, `+10` when
`duration < 120`, `+25` when `percentage === 100`. -/
def calculatePoints (percentage duration : ℚ) : ℤ :=
  let basePoints := jsRound (percentage / 10) * 10
  let basePoints := if duration < 120 then basePoints + 10 else basePoints
  if percentage = 100 then basePoints + 25 else basePoints

/-! ### Activity catalog of `CognoTracker.modules` (activity-tracker.js:19-83)
Each entry is `(activityId, displayName, maxScore)`. -/

/-- Dyslexia activities of the tracker catalog. -/
def dyslexiaActs : List (String × String × ℚ) :=
  [("text-reader", "Text Reader", 100), ("text-simplifier", "Text Simplifier", 100),
   ("letter-match", "Letter Match", 130), ("word-builder", "Word Builder", 100),
   ("sight-words", "Sight Words", 100), ("rhyme-time", "Rhyme Time", 100),
   ("spelling-bee", "Spelling Bee", 100), ("word-scramble", "Word Scramble", 100)]

/-- Dyscalculia activities of the tracker catalog. -/
def dyscalculiaActs : List (String × String × ℚ) :=
  [("number-line", "Number Line", 100), ("counting", "Counting", 100),
   ("number-match", "Number Match", 100), ("addition", "Addition", 100),
   ("subtraction", "Subtraction", 100), ("multiplication", "Multiplication", 100),
   ("division", "Division", 100), ("math-pop", "Math Pop", 100),
   ("number-puzzle", "Number Puzzle", 100)]

/-- Dysgraphia activities of the tracker catalog. -/
def dysgraphiaActs : List (String × String × ℚ) :=
  [("letter-tracing", "Letter Tracing", 100), ("letter-formation", "Letter Formation", 100),
   ("alphabet-practice", "Alphabet Practice", 100), ("word-tracing", "Word Tracing", 100),
   ("spelling-write", "Spelling Write", 100), ("copy-practice", "Copy Practice", 100),
   ("free-draw", "Free Draw", 100), ("shape-tracing", "Shape Tracing", 100),
   ("sentence-write", "Sentence Write", 100)]

/-- Dyspraxia activities of the tracker catalog. -/
def dyspraxiaActs : List (String × String × ℚ) :=
  [("balloon-pop", "Balloon Pop", 100), ("catch-stars", "Catch Stars", 100),
   ("mirror-me", "Mirror Me", 100), ("freeze-dance", "Freeze Dance", 100),
   ("tightrope-walk", "Tightrope Walk", 100), ("obstacle-course", "Obstacle Course", 100),
   ("finger-tap", "Finger Tap", 100), ("drag-drop", "Drag & Drop", 100),
   ("track-path", "Track Path", 100)]

/-- The `CognoTracker.modules` catalog: `(moduleId, displayName, activities)`.
The icon/color presentation fields are omitted. -/
def trackerModules : List (String × String × List (String × String × ℚ)) :=
  [("dyslexia", "Dyslexia", dyslexiaActs), ("dyscalculia", "Dyscalculia", dyscalculiaActs),
   ("dysgraphia", "Dysgraphia", dysgraphiaActs), ("dyspraxia", "Dyspraxia", dyspraxiaActs)]

/-- `this.modules[moduleId]` lookup: display name and activity table. -/
def lookupModule (mid : String) : Option (String × List (String × String × ℚ)) :=
  (trackerModules.find? (fun m => m.1 == mid)).map (fun m => m.2)

/-- `moduleInfo?.activities?.[activityId]` lookup: display name and default maxScore. -/
def lookupActivityInfo (mid aid : String) : Option (String × ℚ) :=
  match lookupModule mid with
  | none => none
  | some m => (m.2.find? (fun a => a.1 == aid)).map (fun a => a.2)

/-- Activity ids of a module (`Object.keys(this.modules[moduleId]?.activities || {})`). -/
def moduleActivityIds (mid : String) : List String :=
  match lookupModule mid with
  | none => []
  | some m => m.2.map (fun a => a.1)

/-! ### Data model: rows of the hosted store, as used by the tracker -/

/-- Resolved identity, as built by `CognoTracker.getCurrentUser`. -/
structure TUser where
  id : String
  name : String
deriving DecidableEq

/-- A `student_progress` row as upserted by `saveActivity`
(activity-tracker.js:184-200); the `data` JSON bag is represented by its
`completion_percentage` field, further metadata omitted. -/
structure ProgressRecord where
  student_id : String
  module_type : String
  activity_type : String
  activity_id : String
  score : ℚ
  max_score : ℚ
  accuracy : ℚ
  time_spent_seconds : ℚ
  completed : Bool
  attempts : ℕ
  completion_percentage : ℤ
deriving DecidableEq

/-- An `activity_logs` row as appended by `logActivityHistory`
(activity-tracker.js:246-263) through the gateway `logActivity` call. -/
structure LogRecord where
  module_type : String
  module_name : Option String
  activity_id : String
  activity_name : String
  score : ℚ
  percentage : ℤ
  duration : ℚ
deriving DecidableEq

/-- A `user_achievements` row (activity-tracker.js:332-343). -/
structure AchievementRecord where
  user_id : String
  achievement_type : String
  achievement_id : String
  title : String
  description : String
  icon : String
  xp_reward : ℕ
deriving DecidableEq

/-- A `doctor_patients` row (read-only for the tracker). -/
structure DoctorPatientLink where
  doctor_id : String
  patient_id : String
  status : String
deriving DecidableEq

/-- A `notifications` row as inserted by `notifyDoctor`
(activity-tracker.js:388-403); the `data` payload is flattened into
`data_*` fields. -/
structure NotificationRecord where
  user_id : String
  title : String
  message : String
  ntype : String
  read : Bool
  data_patient_id : String
  data_patient_name : String
  data_module_id : String
  data_activity_id : String
  data_score : ℚ
  data_percentage : ℤ
deriving DecidableEq

/-- The persistence-gateway state: the tables touched by the tracker. -/
structure DB where
  student_progress : List ProgressRecord
  activity_logs : List LogRecord
  user_achievements : List AchievementRecord
  doctor_patients : List DoctorPatientLink
  notifications : List NotificationRecord
deriving DecidableEq

/-- The argument object of `saveActivity` (the `metadata` bag is omitted:
it is spread into the `data` JSON unchanged). -/
structure ActivityInput where
  moduleId : String
  activityId : String
  score : ℚ
  maxScore : Option ℚ
  duration : ℚ
  accuracy : Option ℚ
deriving DecidableEq

/-- The JavaScript result object of `saveActivity`: absent fields are `none`.
`data` holds the upserted row returned by `.select()`. -/
structure JsResult where
  success : Bool
  guest : Option Bool := none
  error : Option String := none
  percentage : Option ℤ := none
  pointsAwarded : Option ℤ := none
  data : Option ProgressRecord := none
deriving DecidableEq

/-- Outcomes of the external gateway calls that `saveActivity` distinguishes:
whether the `student_progress` upsert fails, and whether the notification
insert fails (both surfaced as `{error}` results in the source and caught). -/
structure Env where
  upsertError : Option String
  notifyInsertFails : Bool
deriving DecidableEq

/-- Full observable outcome of one `saveActivity` call: the returned object,
the database afterwards, and the toast messages shown locally. -/
structure SaveOutput where
  result : JsResult
  db : DB
  toasts : List String
deriving DecidableEq

/-! ### The `saveActivity` pipeline (activity-tracker.js:155-241) -/

/-- JavaScript `a || b` on an optional string: the empty string (and a missing
value) is falsy and falls through to `b`. -/
def jsOrS (a : Option String) (b : String) : String :=
  match a with
  | some v => if v = "" then b else v
  | none => b

/-- `config.notifyDoctorThreshold` (activity-tracker.js:13). -/
def notifyDoctorThreshold : ℤ := 80

/-- `maxScore = activity.maxScore || activityInfo?.maxScore || 100`
(activity-tracker.js:179). -/
def resolvedMaxScore (a : ActivityInput) : ℚ :=
  jsOrQ a.maxScore (jsOrQ ((lookupActivityInfo a.moduleId a.activityId).map (fun i => i.2)) 100)

/-- The percentage `saveActivity` computes for its input (activity-tracker.js:180). -/
def savedPercentage (a : ActivityInput) : ℤ :=
  trackerPercentage a.score (resolvedMaxScore a)

/-- The `student_progress` row built by `saveActivity` (activity-tracker.js:184-200). -/
def mkProgressRecord (u : TUser) (a : ActivityInput) : ProgressRecord :=
  let percentage := savedPercentage a
  { student_id := u.id
    module_type := a.moduleId
    activity_type := jsOrS ((lookupActivityInfo a.moduleId a.activityId).map (fun i => i.1)) a.activityId
    activity_id := a.activityId
    score := a.score
    max_score := resolvedMaxScore a
    accuracy := a.accuracy.getD (percentage : ℚ)
    time_spent_seconds := a.duration
    completed := decide (50 ≤ percentage)
    attempts := 1
    completion_percentage := percentage }

/-- Row matches the upsert conflict key `student_id,module_type,activity_id`. -/
def progressKeyMatches (r : ProgressRecord) (sid mid aid : String) : Bool :=
  r.student_id == sid && r.module_type == mid && r.activity_id == aid

/-- Upsert with `onConflict: student_id,module_type,activity_id`
(activity-tracker.js:204-210): replace the conflicting row, else append. -/
def upsertProgress (l : List ProgressRecord) (r : ProgressRecord) : List ProgressRecord :=
  if l.any (fun x => progressKeyMatches x r.student_id r.module_type r.activity_id) then
    l.map (fun x => if progressKeyMatches x r.student_id r.module_type r.activity_id then r else x)
  else l ++ [r]

/-- First stored row for a key. -/
def findProgress (l : List ProgressRecord) (sid mid aid : String) : Option ProgressRecord :=
  l.find? (fun x => progressKeyMatches x sid mid aid)

/-- `logActivityHistory` (activity-tracker.js:246-263): the gateway
`logActivity` call is modelled as an append to `activity_logs`. -/
def logActivityHistory (db : DB) (a : ActivityInput) (percentage : ℤ) : DB :=
  { db with activity_logs := db.activity_logs ++
      [{ module_type := a.moduleId
         module_name := (lookupModule a.moduleId).map (fun m => m.1)
         activity_id := a.activityId
         activity_name := jsOrS ((lookupActivityInfo a.moduleId a.activityId).map (fun i => i.1)) a.activityId
         score := a.score
         percentage := percentage
         duration := a.duration }] }

/-- A candidate achievement built by `checkAchievements` before the
duplicate check (activity-tracker.js:280-319). -/
structure AchCandidate where
  ctype : String
  id : String
  title : String
  description : String
  icon : String
deriving DecidableEq

/-- The candidate list of `checkAchievements` (activity-tracker.js:272-319):
first-ever activity, perfect score, and module mastery. -/
def achievementsToCheck (u : TUser) (db : DB) (mid : String) (p : ℤ) : List AchCandidate :=
  let firstPart :=
    if (db.student_progress.filter (fun r => r.student_id == u.id)).length = 1 then
      [⟨"milestone", "first_activity", "First Steps", "Complete your first activity", "🌟"⟩]
    else []
  let modName := ((lookupModule mid).map (fun m => m.1)).getD "undefined"
  let perfectPart :=
    if p = 100 then
      [⟨"performance", "perfect_" ++ mid, "Perfect Score!",
        "Get 100% on a " ++ modName ++ " activity", "🏆"⟩]
    else []
  let acts := moduleActivityIds mid
  let completedIds :=
    (db.student_progress.filter
      (fun r => r.student_id == u.id && r.module_type == mid && r.completed)).map
      (fun r => r.activity_id)
  let masteryPart :=
    if acts.length > 0 && acts.all (fun a2 => completedIds.contains a2) then
      [⟨"mastery", "mastery_" ++ mid, modName ++ " Master",
        "Complete all " ++ modName ++ " activities", "👑"⟩]
    else []
  firstPart ++ perfectPart ++ masteryPart

/-- The `user_achievements` row inserted for a qualifying candidate
(activity-tracker.js:332-343); `xp_reward = percentage >= 90 ? 50 : 25`. -/
def mkAch (u : TUser) (p : ℤ) (c : AchCandidate) : AchievementRecord :=
  { user_id := u.id, achievement_type := c.ctype, achievement_id := c.id,
    title := c.title, description := c.description, icon := c.icon,
    xp_reward := if 90 ≤ p then 50 else 25 }

/-- Number of stored achievement rows for one `(userId, achievementId)` key. -/
def countA (l : List AchievementRecord) (uid aid : String) : ℕ :=
  (l.filter (fun r => r.user_id == uid && r.achievement_id == aid)).length

/-- The Achievement invariant of the spec: at most one `user_achievements`
row per `(userId, achievementId)`. -/
def achInvariant (db : DB) : Prop :=
  ∀ uid aid : String, countA db.user_achievements uid aid ≤ 1

/-- Duplicate-checked insert of one candidate (activity-tracker.js:322-357):
the `.single()` existence query yields a row exactly when one row matches,
and only then is the insert skipped.  Returns the new state and whether an
insert happened (which triggers the local unlock toast). -/
def awardIfNew (u : TUser) (p : ℤ) (db : DB) (c : AchCandidate) : DB × Bool :=
  if countA db.user_achievements u.id c.id = 1 then (db, false)
  else ({ db with user_achievements := db.user_achievements ++ [mkAch u p c] }, true)

/-- Toast shown by `showAchievementUnlocked` (activity-tracker.js:460-468). -/
def achToast (c : AchCandidate) : String :=
  "🎉 Achievement Unlocked: " ++ c.title ++ "!"

/-- The `for (const achievement of achievementsToCheck)` loop
(activity-tracker.js:322-358). -/
def runAwards (u : TUser) (p : ℤ) : DB → List AchCandidate → DB × List String
  | db, [] => (db, [])
  | db, c :: cs =>
    let r := awardIfNew u p db c
    let rest := runAwards u p r.1 cs
    (rest.1, (if r.2 then [achToast c] else []) ++ rest.2)

/-- `checkAchievements(moduleId, percentage)` (activity-tracker.js:268-362). -/
def checkAchievements (u : TUser) (db : DB) (mid : String) (p : ℤ) : DB × List String :=
  runAwards u p db (achievementsToCheck u db mid p)

/-- Resolve the active doctor link (activity-tracker.js:372-381): a
`.single()` query on `doctor_patients` filtered by patient and
`status = 'active'`; a row is returned only when exactly one matches, and a
falsy `doctor_id` is treated as no link. -/
def findActiveLink (links : List DoctorPatientLink) (pid : String) : Option String :=
  match links.filter (fun l => l.patient_id == pid && l.status == "active") with
  | [l] => if l.doctor_id == "" then none else some l.doctor_id
  | _ => none

/-- The notification row inserted for the doctor (activity-tracker.js:388-403). -/
def mkDoctorNotification (did : String) (u : TUser) (a : ActivityInput) (p : ℤ) :
    NotificationRecord :=
  { user_id := did
    title := if 90 ≤ p then "🌟 Excellent Progress!" else "✅ Activity Completed"
    message := u.name ++ " scored " ++ toString p ++ "% on " ++
      jsOrS ((lookupActivityInfo a.moduleId a.activityId).map (fun i => i.1)) a.activityId ++
      " (" ++ ((lookupModule a.moduleId).map (fun m => m.1)).getD "undefined" ++ ")"
    ntype := if 90 ≤ p then "achievement" else "info"
    read := false
    data_patient_id := u.id
    data_patient_name := u.name
    data_module_id := a.moduleId
    data_activity_id := a.activityId
    data_score := a.score
    data_percentage := p }

/-- `notifyDoctor(activity, percentage)` (activity-tracker.js:367-417):
no active link is a no-op; an insert failure is caught and logged, so the
function always returns normally. -/
def notifyDoctor (u : TUser) (env : Env) (db : DB) (a : ActivityInput) (p : ℤ) : DB :=
  match findActiveLink db.doctor_patients u.id with
  | none => db
  | some did =>
    if env.notifyInsertFails then db
    else { db with notifications := db.notifications ++ [mkDoctorNotification did u a p] }

/-- Message of `showLocalFeedback` (activity-tracker.js:452-455). -/
def localFeedbackMsg : String := "Score saved locally! Log in to track your progress."

/-- Message of `showSuccessFeedback` (activity-tracker.js:422-447); the
toast kind (success/info) is not modelled, only the text shown. -/
def successFeedbackMsg (a : ActivityInput) (p : ℤ) : String :=
  let nm := jsOrS ((lookupActivityInfo a.moduleId a.activityId).map (fun i => i.1)) "activity"
  if 90 ≤ p then "🌟 Excellent! " ++ toString p ++ "% on " ++ nm ++ "!"
  else if 70 ≤ p then "✅ Great job! " ++ toString p ++ "% on " ++ nm ++ "!"
  else if 50 ≤ p then "👍 Good effort! " ++ toString p ++ "% on " ++ nm
  else "Keep practicing! " ++ toString p ++ "% - You\x27ll improve!"

/-- `CognoTracker.saveActivity(activity)` (activity-tracker.js:155-241).
The resolved identity is passed as `user` (the source refreshes
`this.user` via `getCurrentUser` before the guest check); `env` fixes the
outcome of the fallible gateway writes. -/
def saveActivity (user : Option TUser) (env : Env) (db : DB) (a : ActivityInput) : SaveOutput :=
  if a.moduleId = "" ∨ a.activityId = "" then
    { result := { success := false, error := some "Missing required fields" }, db := db, toasts := [] }
  else
    match user with
    | none =>
      { result := { success := true, guest := some true }, db := db, toasts := [localFeedbackMsg] }
    | some u =>
      let record := mkProgressRecord u a
      let percentage := record.completion_percentage
      match env.upsertError with
      | some e =>
        { result := { success := false, error := some e }, db := db, toasts := [localFeedbackMsg] }
      | none =>
        let db1 := { db with student_progress := upsertProgress db.student_progress record }
        let db2 := logActivityHistory db1 a percentage
        let ach := checkAchievements u db2 a.moduleId percentage
        let db4 := if notifyDoctorThreshold ≤ percentage then notifyDoctor u env ach.1 a percentage
                   else ach.1
        { result := { success := true, percentage := some percentage, data := some record }
          db := db4
          toasts := ach.2 ++ [successFeedbackMsg a percentage] }

/-! ### The modules-path recorder `CognoModules.completeActivity`
(part_000:577-628) and its stored `activity_progress` row. -/

/-- An `activity_progress` row as upserted by `CognoModules.completeActivity`. -/
structure ModProgressRecord where
  user_id : String
  module_type : String
  activity_id : String
  completion_percentage : ℤ
  best_score : ℚ
  attempts : ℕ
  total_time_spent : ℚ
deriving DecidableEq

/-- `this.activityProgress?.[activityId]?.completion_percentage || 0`. -/
def priorPercentage (prior : Option ModProgressRecord) : ℤ :=
  match prior with
  | some r => r.completion_percentage
  | none => 0

/-- `this.activityProgress?.[activityId]?.best_score || 0`. -/
def priorBest (prior : Option ModProgressRecord) : ℚ :=
  match prior with
  | some r => r.best_score
  | none => 0

/-- `this.activityProgress?.[activityId]?.attempts || 0`. -/
def priorAttempts (prior : Option ModProgressRecord) : ℕ :=
  match prior with
  | some r => r.attempts
  | none => 0

/-- `this.activityProgress?.[activityId]?.total_time_spent || 0`. -/
def priorTime (prior : Option ModProgressRecord) : ℚ :=
  match prior with
  | some r => r.total_time_spent
  | none => 0

/-- The row upserted by `completeActivity` (part_000:585-596): a running
maximum over the cached prior row, with `attempts` incremented. -/
def mkModulesRecord (uid mid aid : String) (prior : Option ModProgressRecord)
    (score maxScore duration : ℚ) : ModProgressRecord :=
  let percentage := modulesPercentage score maxScore
  { user_id := uid, module_type := mid, activity_id := aid
    completion_percentage := max percentage (priorPercentage prior)
    best_score := max score (priorBest prior)
    attempts := priorAttempts prior + 1
    total_time_spent := priorTime prior + duration }

/-- `CognoModules.completeActivity(activityId, score, maxScore, duration)`
(part_000:577-628): `none` when no user is resolved; otherwise the upserted
row together with the returned `{points, percentage}`.  The activity-log
append, completion toast and this path's own achievement inserts are not
modelled (no claim depends on them). -/
def completeActivity (user : Option TUser) (currentModule : String)
    (prior : Option ModProgressRecord) (activityId : String)
    (score maxScore duration : ℚ) : Option (ModProgressRecord × ℤ × ℤ) :=
  match user with
  | none => none
  | some u =>
    let percentage := modulesPercentage score maxScore
    let points := calculatePoints (percentage : ℚ) duration
    some (mkModulesRecord u.id currentModule activityId prior score maxScore duration,
          points, percentage)

/-! ### Realtime channel registry (js/realtime.js) -/

/-- Modelled from the spec: the external Realtime Channel Provider client
(`window.CognoSupabase.client`), which is not part of this repository.
`channel(name)` opens and registers a named channel; `channel.unsubscribe()`
closes it, dropping it from the provider's set of open channels. -/
structure RtClient where
  openChannels : List String
deriving DecidableEq

/-- Provider `client.channel(name)` followed by `.subscribe()`. -/
def clientOpenChannel (c : RtClient) (nm : String) : RtClient :=
  { openChannels := c.openChannels ++ [nm] }

/-- Provider `channel.unsubscribe()`: closes the named channel; closing an
already-closed channel changes nothing. -/
def channelUnsub (c : RtClient) (nm : String) : RtClient :=
  { openChannels := c.openChannels.filter (fun x => !(x == nm)) }

/-- Process-wide realtime state: the provider client plus the
`RealtimeManager.channels` registry of realtime.js:12 (the registry holds
channel references keyed by name; names suffice here). -/
structure RtState where
  client : RtClient
  managerChannels : List String
deriving DecidableEq

/-- Initial realtime state: no channels anywhere. -/
def rtEmpty : RtState := { client := { openChannels := [] }, managerChannels := [] }

/-- `RealtimeManager.subscribe(channelName, config)` (realtime.js:26-42):
reuse a registered channel, else create one on the client and register it. -/
def managerSubscribe (s : RtState) (nm : String) : RtState :=
  if s.managerChannels.contains nm then s
  else { client := clientOpenChannel s.client nm, managerChannels := s.managerChannels ++ [nm] }

/-- `RealtimeManager.unsubscribe(channelName)` (realtime.js:48-54): when the
name is registered, close the channel and delete the registry entry;
otherwise do nothing. -/
def managerUnsubscribe (s : RtState) (nm : String) : RtState :=
  if s.managerChannels.contains nm then
    { client := channelUnsub s.client nm
      managerChannels := s.managerChannels.filter (fun x => !(x == nm)) }
  else s

/-- `TableSubscriptions.subscribe(table, callback, options)`
(realtime.js:92-119): opens channel `table:<table>:<timestamp>` directly on
the provider client — the RealtimeManager registry is not involved — and
returns the unsubscribe closure, represented by the captured channel name. -/
def tableSubscribe (s : RtState) (table : String) (ts : ℕ) : RtState × String :=
  let nm := "table:" ++ table ++ ":" ++ toString ts
  ({ s with client := clientOpenChannel s.client nm }, nm)

/-- The closure `() => subscription.unsubscribe()` returned at
realtime.js:118, applied to the state. -/
def tableUnsubscribe (s : RtState) (nm : String) : RtState :=
  { s with client := channelUnsub s.client nm }

end Cogno

namespace Cogno

/-! ### Concrete fixtures used by witnesses and counterexamples -/

/-- A concrete student identity. -/
def alice : TUser := { id := "alice-id", name := "Alice" }

/-- Gateway environment where every write succeeds. -/
def envOk : Env := { upsertError := none, notifyInsertFails := false }

/-- Empty database. -/
def db0 : DB :=
  { student_progress := [], activity_logs := [], user_achievements := [],
    doctor_patients := [], notifications := [] }

/-- Database whose only row links doctor `doc-1` to Alice, active. -/
def dbLink : DB :=
  { db0 with doctor_patients := [{ doctor_id := "doc-1", patient_id := "alice-id", status := "active" }] }

/-- A letter-match attempt with the given score out of an explicit 100. -/
def act (score : ℚ) : ActivityInput :=
  { moduleId := "dyslexia", activityId := "letter-match", score := score,
    maxScore := some 100, duration := 90, accuracy := none }

/-- The first-activity candidate, as built at activity-tracker.js:281-287. -/
def candFirst : AchCandidate :=
  { ctype := "milestone", id := "first_activity", title := "First Steps",
    description := "Complete your first activity", icon := "🌟" }

/-- Database already holding Alice's `first_activity` achievement row. -/
def dbAch : DB := { db0 with user_achievements := [mkAch alice 80 candFirst] }

/-- A prior `activity_progress` row for the modules path: best score 90 after
three attempts. -/
def priorRec : ModProgressRecord :=
  { user_id := "alice-id", module_type := "dyslexia", activity_id := "letter-match",
    completion_percentage := 90, best_score := 90, attempts := 3, total_time_spent := 500 }

/-! ### Abbreviations for the stages of the `saveActivity` success path
(pure restatements of the body of `saveActivity`, for use in theorems). -/

/-- Database after the upsert and the history log of a successful save. -/
def dbAfterUpsert (u : TUser) (db : DB) (a : ActivityInput) : DB :=
  logActivityHistory
    { db with student_progress := upsertProgress db.student_progress (mkProgressRecord u a) }
    a (savedPercentage a)

/-- The achievement pass of a successful save. -/
def achStep (u : TUser) (db : DB) (a : ActivityInput) : DB × List String :=
  checkAchievements u (dbAfterUpsert u db a) a.moduleId (savedPercentage a)

/-- Database at the end of a successful save (after the conditional doctor
notification). -/
def dbAfterSave (u : TUser) (env : Env) (db : DB) (a : ActivityInput) : DB :=
  if notifyDoctorThreshold ≤ savedPercentage a then
    notifyDoctor u env (achStep u db a).1 a (savedPercentage a)
  else (achStep u db a).1

end Cogno

namespace Cogno

/-! ### Structural helper lemmas -/

/-- A replaced row is the first hit of a subsequent keyed search. -/
theorem find?_map_replace {α} (p : α → Bool) (r : α) (hr : p r = true) :
    ∀ l : List α, l.any p = true →
      (l.map (fun x => if p x then r else x)).find? p = some r := by
  intro l h
  induction l with
  | nil => simp at h
  | cons x xs ih =>
    cases hp : p x with
    | true => simp [hp, List.find?_cons, hr]
    | false =>
      have h' : xs.any p = true := by simpa [hp] using h
      simp [hp, List.find?_cons, ih h']

/-- An appended row is found when no earlier row matches. -/
theorem find?_append_single {α} (p : α → Bool) (r : α) (hr : p r = true) :
    ∀ l : List α, l.any p = false → (l ++ [r]).find? p = some r := by
  intro l h
  induction l with
  | nil => simp [List.find?, hr]
  | cons x xs ih =>
    have hp : p x = false := by
      cases hx : p x
      · rfl
      · simp [hx] at h
    have h' : xs.any p = false := by simpa [hp] using h
    simp [hp, List.find?_cons, ih h']

/-- A row always matches its own key. -/
theorem progressKeyMatches_self (r : ProgressRecord) :
    progressKeyMatches r r.student_id r.module_type r.activity_id = true := by
  simp [progressKeyMatches]

/-- After the upsert, the keyed lookup returns exactly the new row
(the tracker path overwrites whatever was stored before). -/
theorem findProgress_upsertProgress (l : List ProgressRecord) (r : ProgressRecord) :
    findProgress (upsertProgress l r) r.student_id r.module_type r.activity_id = some r := by
  unfold findProgress upsertProgress
  cases h : l.any (fun x => progressKeyMatches x r.student_id r.module_type r.activity_id) with
  | true => simp only [if_pos]; exact find?_map_replace _ r (progressKeyMatches_self r) l h
  | false =>
    simp only [h, Bool.false_eq_true, if_false]
    exact find?_append_single _ r (progressKeyMatches_self r) l h

/-- The achievement guard touches only the `user_achievements` table. -/
theorem awardIfNew_fst_student_progress (u : TUser) (p : ℤ) (db : DB) (c : AchCandidate) :
    (awardIfNew u p db c).1.student_progress = db.student_progress := by
  unfold awardIfNew; split <;> rfl

/-- The achievement guard leaves `notifications` unchanged. -/
theorem awardIfNew_fst_notifications (u : TUser) (p : ℤ) (db : DB) (c : AchCandidate) :
    (awardIfNew u p db c).1.notifications = db.notifications := by
  unfold awardIfNew; split <;> rfl

/-- The achievement guard leaves `doctor_patients` unchanged. -/
theorem awardIfNew_fst_doctor_patients (u : TUser) (p : ℤ) (db : DB) (c : AchCandidate) :
    (awardIfNew u p db c).1.doctor_patients = db.doctor_patients := by
  unfold awardIfNew; split <;> rfl

/-- The achievement loop touches only the `user_achievements` table. -/
theorem runAwards_fst_student_progress (u : TUser) (p : ℤ) :
    ∀ (cs : List AchCandidate) (db : DB),
      (runAwards u p db cs).1.student_progress = db.student_progress := by
  intro cs
  induction cs with
  | nil => intro db; rfl
  | cons c cs ih =>
    intro db
    simp only [runAwards]
    rw [ih, awardIfNew_fst_student_progress]

/-- The achievement loop leaves `notifications` unchanged. -/
theorem runAwards_fst_notifications (u : TUser) (p : ℤ) :
    ∀ (cs : List AchCandidate) (db : DB),
      (runAwards u p db cs).1.notifications = db.notifications := by
  intro cs
  induction cs with
  | nil => intro db; rfl
  | cons c cs ih =>
    intro db
    simp only [runAwards]
    rw [ih, awardIfNew_fst_notifications]

/-- The achievement loop leaves `doctor_patients` unchanged. -/
theorem runAwards_fst_doctor_patients (u : TUser) (p : ℤ) :
    ∀ (cs : List AchCandidate) (db : DB),
      (runAwards u p db cs).1.doctor_patients = db.doctor_patients := by
  intro cs
  induction cs with
  | nil => intro db; rfl
  | cons c cs ih =>
    intro db
    simp only [runAwards]
    rw [ih, awardIfNew_fst_doctor_patients]

/-- The doctor notification leaves `student_progress` unchanged. -/
theorem notifyDoctor_student_progress (u : TUser) (env : Env) (db : DB)
    (a : ActivityInput) (p : ℤ) :
    (notifyDoctor u env db a p).student_progress = db.student_progress := by
  unfold notifyDoctor
  split
  · rfl
  · split <;> rfl

/-- Unfolding of `saveActivity` on the success path: valid input, a resolved
user and a successful upsert. -/
theorem saveActivity_success (u : TUser) (env : Env) (db : DB) (a : ActivityInput)
    (h1 : ¬ a.moduleId = "") (h2 : ¬ a.activityId = "") (henv : env.upsertError = none) :
    saveActivity (some u) env db a =
      { result := { success := true, percentage := some (savedPercentage a),
                    data := some (mkProgressRecord u a) }
        db := dbAfterSave u env db a
        toasts := (achStep u db a).2 ++ [successFeedbackMsg a (savedPercentage a)] } := by
  obtain ⟨ue, nf⟩ := env
  have hue : ue = none := henv
  subst hue
  simp only [saveActivity, h1, h2, or_self, if_neg, not_false_iff, false_or]
  rfl

/-- Rounding is monotone. -/
theorem jsRound_le_jsRound {q r : ℚ} (h : q ≤ r) : jsRound q ≤ jsRound r :=
  Int.floor_le_floor (by linarith)

/-- Rounding fixes the integer 100. -/
theorem jsRound_hundred : jsRound 100 = 100 := by norm_num [jsRound]

/-- Rounding a nonnegative rational is nonnegative. -/
theorem jsRound_nonneg {q : ℚ} (h : 0 ≤ q) : 0 ≤ jsRound q :=
  Int.le_floor.mpr (by push_cast; linarith)

/-- C1. For every `score ≥ 0` and `maxScore > 0`, the Activity Recorder's
percentage `min(100, round(score / maxScore * 100))` equals
`round(min(score, maxScore) / maxScore * 100)` and lies in `[0, 100]`. -/
theorem trackerPercentage_eq_round_min_and_mem_Icc (score maxScore : ℚ)
    (hs : 0 ≤ score) (hm : 0 < maxScore) :
    trackerPercentage score maxScore = jsRound (min score maxScore / maxScore * 100) ∧
    0 ≤ trackerPercentage score maxScore ∧ trackerPercentage score maxScore ≤ 100 := by
  refine ⟨?_, ?_, min_le_left _ _⟩
  · rcases le_total score maxScore with h | h
    · rw [min_eq_left h]
      apply min_eq_right
      have h1 : score / maxScore * 100 ≤ 100 := by
        rw [div_mul_eq_mul_div, div_le_iff₀ hm]; nlinarith
      calc jsRound (score / maxScore * 100) ≤ jsRound 100 := jsRound_le_jsRound h1
        _ = 100 := jsRound_hundred
    · have h2 : min score maxScore / maxScore * 100 = 100 := by
        rw [min_eq_right h, div_self (ne_of_gt hm)]; ring
      rw [h2, jsRound_hundred]
      apply min_eq_left
      have h1 : (100 : ℚ) ≤ score / maxScore * 100 := by
        rw [div_mul_eq_mul_div, le_div_iff₀ hm]; nlinarith
      calc (100 : ℤ) = jsRound 100 := jsRound_hundred.symm
        _ ≤ jsRound (score / maxScore * 100) := jsRound_le_jsRound h1
  · exact le_min (by norm_num) (jsRound_nonneg (by positivity))

/-- Witness for C1 at `score = 150, maxScore = 100` (the clamped case): the
percentage evaluates to 100 and the theorem applies. -/
theorem trackerPercentage_eq_round_min_and_mem_Icc_witness :
    trackerPercentage 150 100 = 100 ∧
    (trackerPercentage 150 100 = jsRound (min 150 100 / 100 * 100) ∧
      0 ≤ trackerPercentage 150 100 ∧ trackerPercentage 150 100 ≤ 100) :=
  ⟨by norm_num [trackerPercentage, jsRound],
   trackerPercentage_eq_round_min_and_mem_Icc 150 100 (by norm_num) (by norm_num)⟩

/-- The percentage of the `act` fixture is `min 100 (jsRound s)`. -/
theorem savedPercentage_act (s : ℚ) : savedPercentage (act s) = min 100 (jsRound s) := by
  have h : s / 100 * 100 = s := by ring
  simp [savedPercentage, act, resolvedMaxScore, jsOrQ, trackerPercentage, h]

/-- The achievement pass leaves `notifications` unchanged. -/
theorem achStep_notifications (u : TUser) (db : DB) (a : ActivityInput) :
    (achStep u db a).1.notifications = db.notifications := by
  unfold achStep checkAchievements
  rw [runAwards_fst_notifications]
  rfl

/-- The achievement pass leaves `doctor_patients` unchanged. -/
theorem achStep_doctor_patients (u : TUser) (db : DB) (a : ActivityInput) :
    (achStep u db a).1.doctor_patients = db.doctor_patients := by
  unfold achStep checkAchievements
  rw [runAwards_fst_doctor_patients]
  rfl

/-- The stored progress row of a successful save is the freshly built row. -/
theorem dbAfterSave_student_progress (u : TUser) (env : Env) (db : DB) (a : ActivityInput) :
    (dbAfterSave u env db a).student_progress =
      upsertProgress db.student_progress (mkProgressRecord u a) := by
  unfold dbAfterSave
  split
  · rw [notifyDoctor_student_progress]
    unfold achStep checkAchievements
    rw [runAwards_fst_student_progress]
    rfl
  · unfold achStep checkAchievements
    rw [runAwards_fst_student_progress]
    rfl

/-- C2. `calculatePoints(percentage, duration)` is
`round(percentage / 10) * 10`, plus 10 when `duration < 120`, plus 25 when
`percentage == 100`; in particular `calculatePoints(100, 60) = 135`,
`calculatePoints(100, 150) = 125`, `calculatePoints(50, 300) = 50` and
`calculatePoints(0, 10) = 10`. -/
theorem calculatePoints_spec :
    (∀ p d : ℚ, calculatePoints p d =
      jsRound (p / 10) * 10 + (if d < 120 then 10 else 0) + (if p = 100 then 25 else 0)) ∧
    calculatePoints 100 60 = 135 ∧ calculatePoints 100 150 = 125 ∧
    calculatePoints 50 300 = 50 ∧ calculatePoints 0 10 = 10 := by
  refine ⟨fun p d => ?_, by norm_num [calculatePoints, jsRound],
    by norm_num [calculatePoints, jsRound], by norm_num [calculatePoints, jsRound],
    by norm_num [calculatePoints, jsRound]⟩
  simp only [calculatePoints]
  by_cases hd : d < 120 <;> by_cases hp : p = 100 <;> simp [hd, hp]

/-- C3 counterexample: a concrete successful non-guest recording (Alice,
letter-match, 80/100) whose result object carries the percentage but no
`pointsAwarded` field — `saveActivity` never computes points. -/
theorem saveActivity_result_lacks_points :
    (saveActivity (some alice) envOk db0 (act 80)).result.success = true ∧
    (saveActivity (some alice) envOk db0 (act 80)).result.guest = none ∧
    (saveActivity (some alice) envOk db0 (act 80)).result.percentage = some 80 ∧
    (saveActivity (some alice) envOk db0 (act 80)).result.pointsAwarded = none := by
  rw [saveActivity_success alice envOk db0 (act 80) (by decide) (by decide) rfl]
  refine ⟨rfl, rfl, ?_, rfl⟩
  rw [show (savedPercentage (act 80)) = 80 by rw [savedPercentage_act]; norm_num [jsRound]]

/-- C3 amended. For every successful non-guest recording, the result object
contains `success`, the computed percentage and the upserted row — but no
`pointsAwarded` field (points are computed only on the modules path). -/
theorem saveActivity_success_result (u : TUser) (env : Env) (db : DB) (a : ActivityInput)
    (h1 : ¬ a.moduleId = "") (h2 : ¬ a.activityId = "") (henv : env.upsertError = none) :
    (saveActivity (some u) env db a).result =
      { success := true, guest := none, error := none,
        percentage := some (savedPercentage a), pointsAwarded := none,
        data := some (mkProgressRecord u a) } := by
  rw [saveActivity_success u env db a h1 h2 henv]

/-- Witness for C3 amended at Alice scoring 80/100 on letter-match. -/
theorem saveActivity_success_result_witness :
    savedPercentage (act 80) = 80 ∧
    (saveActivity (some alice) envOk db0 (act 80)).result =
      { success := true, guest := none, error := none,
        percentage := some (savedPercentage (act 80)), pointsAwarded := none,
        data := some (mkProgressRecord alice (act 80)) } :=
  ⟨by rw [savedPercentage_act]; norm_num [jsRound],
   saveActivity_success_result alice envOk db0 (act 80) (by decide) (by decide) rfl⟩

/-- C4. For every attempt stored by a successful save, the row's `completed`
flag is true exactly when the computed percentage is at least 50. -/
theorem completed_iff_fifty (u : TUser) (env : Env) (db : DB) (a : ActivityInput)
    (h1 : ¬ a.moduleId = "") (h2 : ¬ a.activityId = "") (henv : env.upsertError = none) :
    findProgress (saveActivity (some u) env db a).db.student_progress
        u.id a.moduleId a.activityId = some (mkProgressRecord u a) ∧
    ((mkProgressRecord u a).completed = true ↔ 50 ≤ savedPercentage a) := by
  constructor
  · rw [saveActivity_success u env db a h1 h2 henv]
    show findProgress (dbAfterSave u env db a).student_progress _ _ _ = _
    rw [dbAfterSave_student_progress]
    exact findProgress_upsertProgress db.student_progress (mkProgressRecord u a)
  · simp [mkProgressRecord]

/-- Witness for C4 at the boundary: percentage 49 gives `completed = false`,
percentage 50 gives `completed = true`. -/
theorem completed_iff_fifty_witness :
    savedPercentage (act 49) = 49 ∧ savedPercentage (act 50) = 50 ∧
    (mkProgressRecord alice (act 49)).completed = false ∧
    (mkProgressRecord alice (act 50)).completed = true ∧
    findProgress (saveActivity (some alice) envOk db0 (act 49)).db.student_progress
      "alice-id" "dyslexia" "letter-match" = some (mkProgressRecord alice (act 49)) := by
  have h49 := completed_iff_fifty alice envOk db0 (act 49) (by decide) (by decide) rfl
  have h50 := completed_iff_fifty alice envOk db0 (act 50) (by decide) (by decide) rfl
  have p49 : savedPercentage (act 49) = 49 := by rw [savedPercentage_act]; norm_num [jsRound]
  have p50 : savedPercentage (act 50) = 50 := by rw [savedPercentage_act]; norm_num [jsRound]
  refine ⟨p49, p50, ?_, ?_, h49.1⟩
  · cases hb : (mkProgressRecord alice (act 49)).completed
    · rfl
    · have := h49.2.mp hb
      rw [p49] at this
      norm_num at this
  · exact h50.2.mpr (by rw [p50])

/-- C5. A successful save notifies the linked doctor exactly when the
percentage reaches 80: below 80 the notifications table is untouched; at 80
or above, with no active link the fan-out is a no-op, and with an active
link one row addressed to the doctor is inserted whose type is
`"achievement"` when the percentage is at least 90 and `"info"` otherwise;
in every case (including a failing notification insert) the call still
returns a successful result — the fan-out never throws to the caller. -/
theorem notify_fanout_spec (u : TUser) (env : Env) (db : DB) (a : ActivityInput)
    (h1 : ¬ a.moduleId = "") (h2 : ¬ a.activityId = "") (henv : env.upsertError = none) :
    (savedPercentage a < 80 →
      (saveActivity (some u) env db a).db.notifications = db.notifications) ∧
    (80 ≤ savedPercentage a → findActiveLink db.doctor_patients u.id = none →
      (saveActivity (some u) env db a).db.notifications = db.notifications) ∧
    (∀ did, 80 ≤ savedPercentage a → findActiveLink db.doctor_patients u.id = some did →
      env.notifyInsertFails = false →
      (saveActivity (some u) env db a).db.notifications =
        db.notifications ++ [mkDoctorNotification did u a (savedPercentage a)] ∧
      (mkDoctorNotification did u a (savedPercentage a)).user_id = did ∧
      (mkDoctorNotification did u a (savedPercentage a)).ntype =
        (if 90 ≤ savedPercentage a then "achievement" else "info")) ∧
    (saveActivity (some u) env db a).result.success = true := by
  rw [saveActivity_success u env db a h1 h2 henv]
  refine ⟨?_, ?_, ?_, rfl⟩
  · intro hlt
    show (dbAfterSave u env db a).notifications = db.notifications
    unfold dbAfterSave
    rw [if_neg (by exact not_le.mpr hlt)]
    exact achStep_notifications u db a
  · intro hge hnone
    show (dbAfterSave u env db a).notifications = db.notifications
    unfold dbAfterSave
    rw [if_pos (by exact hge)]
    unfold notifyDoctor
    rw [achStep_doctor_patients, hnone]
    exact achStep_notifications u db a
  · intro did hge hsome hnf
    refine ⟨?_, rfl, rfl⟩
    show (dbAfterSave u env db a).notifications = _
    unfold dbAfterSave
    rw [if_pos (by exact hge)]
    unfold notifyDoctor
    rw [achStep_doctor_patients, hsome]
    simp only [hnf, Bool.false_eq_true, if_false]
    rw [achStep_notifications]

/-- Witness for C5 at the 79/80 boundary with a linked doctor: 79% leaves
notifications empty, 80% inserts exactly the `"info"` row for `doc-1`. -/
theorem notify_fanout_spec_witness :
    savedPercentage (act 79) = 79 ∧ savedPercentage (act 80) = 80 ∧
    findActiveLink dbLink.doctor_patients "alice-id" = some "doc-1" ∧
    (saveActivity (some alice) envOk dbLink (act 79)).db.notifications = [] ∧
    (saveActivity (some alice) envOk dbLink (act 80)).db.notifications =
      [mkDoctorNotification "doc-1" alice (act 80) 80] ∧
    (mkDoctorNotification "doc-1" alice (act 80) 80).ntype = "info" := by
  have p79 : savedPercentage (act 79) = 79 := by rw [savedPercentage_act]; norm_num [jsRound]
  have p80 : savedPercentage (act 80) = 80 := by rw [savedPercentage_act]; norm_num [jsRound]
  have hlink : findActiveLink dbLink.doctor_patients "alice-id" = some "doc-1" := by decide
  have h79 := (notify_fanout_spec alice envOk dbLink (act 79) (by decide) (by decide) rfl).1
    (by rw [p79]; norm_num)
  have h80 := ((notify_fanout_spec alice envOk dbLink (act 80) (by decide) (by decide)
    rfl).2.2.1 "doc-1" (by rw [p80]) hlink rfl).1
  rw [p80] at h80
  exact ⟨p79, p80, hlink, h79, h80, rfl⟩

/-- Counting rows after appending one row. -/
theorem countA_append (l : List AchievementRecord) (r : AchievementRecord) (uid aid : String) :
    countA (l ++ [r]) uid aid =
      countA l uid aid + (if r.user_id == uid && r.achievement_id == aid then 1 else 0) := by
  simp only [countA, List.filter_append]
  cases h : (r.user_id == uid && r.achievement_id == aid) <;> simp [h]

/-- An inserted row matches its own key. -/
theorem mkAch_key_beq (u : TUser) (p : ℤ) (c : AchCandidate) :
    ((mkAch u p c).user_id == u.id && (mkAch u p c).achievement_id == c.id) = true := by
  simp [mkAch]

/-- When exactly one row for the key exists, the guard is a no-op. -/
theorem awardIfNew_noop (u : TUser) (p : ℤ) (db : DB) (c : AchCandidate)
    (h : countA db.user_achievements u.id c.id = 1) :
    awardIfNew u p db c = (db, false) := by
  unfold awardIfNew
  rw [if_pos h]

/-- After the guard runs, exactly one row for its key exists (given the
invariant held for that key). -/
theorem awardIfNew_count_self (u : TUser) (p : ℤ) (db : DB) (c : AchCandidate)
    (h : countA db.user_achievements u.id c.id ≤ 1) :
    countA (awardIfNew u p db c).1.user_achievements u.id c.id = 1 := by
  unfold awardIfNew
  by_cases h1 : countA db.user_achievements u.id c.id = 1
  · rw [if_pos h1]; exact h1
  · rw [if_neg h1]
    show countA (db.user_achievements ++ [mkAch u p c]) u.id c.id = 1
    rw [countA_append, mkAch_key_beq]
    have h0 : countA db.user_achievements u.id c.id = 0 := by omega
    rw [h0]
    simp

/-- The guard never changes the row count of a different key. -/
theorem awardIfNew_count_other (u : TUser) (p : ℤ) (db : DB) (c : AchCandidate)
    (uid aid : String) (h : ¬(uid = u.id ∧ aid = c.id)) :
    countA (awardIfNew u p db c).1.user_achievements uid aid =
      countA db.user_achievements uid aid := by
  unfold awardIfNew
  split
  · rfl
  · show countA (db.user_achievements ++ [mkAch u p c]) uid aid = _
    rw [countA_append]
    cases hb : ((mkAch u p c).user_id == uid && (mkAch u p c).achievement_id == aid) with
    | false => simp
    | true =>
      exfalso
      apply h
      simp only [mkAch, Bool.and_eq_true, beq_iff_eq] at hb
      exact ⟨hb.1.symm, hb.2.symm⟩

/-- The guard preserves the at-most-one-row invariant. -/
theorem awardIfNew_inv (u : TUser) (p : ℤ) (db : DB) (c : AchCandidate)
    (h : achInvariant db) : achInvariant (awardIfNew u p db c).1 := by
  intro uid aid
  by_cases hk : uid = u.id ∧ aid = c.id
  · obtain ⟨hk1, hk2⟩ := hk
    subst hk1; subst hk2
    rw [awardIfNew_count_self u p db c (h _ _)]
  · rw [awardIfNew_count_other u p db c uid aid hk]
    exact h _ _

/-- A key already present exactly once stays present exactly once through the
whole achievement loop. -/
theorem runAwards_count_one_stable (u : TUser) (p : ℤ) :
    ∀ (cs : List AchCandidate) (db : DB) (aid : String),
      countA db.user_achievements u.id aid = 1 →
      countA (runAwards u p db cs).1.user_achievements u.id aid = 1 := by
  intro cs
  induction cs with
  | nil => intro db aid h; exact h
  | cons c cs ih =>
    intro db aid h
    simp only [runAwards]
    apply ih
    by_cases hc : aid = c.id
    · subst hc
      exact awardIfNew_count_self u p db c (by omega)
    · rw [awardIfNew_count_other u p db c u.id aid (fun hk => hc hk.2)]
      exact h

/-- The achievement loop preserves the at-most-one-row invariant. -/
theorem runAwards_inv (u : TUser) (p : ℤ) :
    ∀ (cs : List AchCandidate) (db : DB),
      achInvariant db → achInvariant (runAwards u p db cs).1 := by
  intro cs
  induction cs with
  | nil => intro db h; exact h
  | cons c cs ih =>
    intro db h
    simp only [runAwards]
    exact ih _ (awardIfNew_inv u p db c h)

/-- Running the achievement loop a second time over the same candidates is a
no-op: nothing is inserted and no toast is produced. -/
theorem runAwards_second_pass (u : TUser) (p : ℤ) :
    ∀ (cs : List AchCandidate) (db : DB), achInvariant db →
      runAwards u p (runAwards u p db cs).1 cs = ((runAwards u p db cs).1, []) := by
  intro cs
  induction cs with
  | nil => intro db _; rfl
  | cons c cs ih =>
    intro db h
    have hcnt : countA (runAwards u p (awardIfNew u p db c).1 cs).1.user_achievements
        u.id c.id = 1 :=
      runAwards_count_one_stable u p cs (awardIfNew u p db c).1 c.id
        (awardIfNew_count_self u p db c (h _ _))
    have hrest := ih (awardIfNew u p db c).1 (awardIfNew_inv u p db c h)
    have hnoop :=
      awardIfNew_noop u p (runAwards u p (awardIfNew u p db c).1 cs).1 c hcnt
    simp only [runAwards]
    simp only [hnoop, hrest]
    simp

/-- Candidate computation only reads `student_progress` (and the catalog). -/
theorem achievementsToCheck_congr (u : TUser) (mid : String) (p : ℤ) (db db' : DB)
    (h : db'.student_progress = db.student_progress) :
    achievementsToCheck u db' mid p = achievementsToCheck u db mid p := by
  unfold achievementsToCheck
  rw [h]

/-- C7. The Achievement Evaluator is idempotent: when a row for
`(userId, achievementId)` already exists the guard inserts nothing; the
at-most-one-row invariant is preserved by an evaluation; and under the
invariant a second evaluation over the same database is a no-op. -/
theorem achievement_award_idempotent :
    (∀ (db : DB) (u : TUser) (p : ℤ) (c : AchCandidate),
      countA db.user_achievements u.id c.id = 1 → awardIfNew u p db c = (db, false)) ∧
    (∀ (u : TUser) (db : DB) (mid : String) (p : ℤ),
      achInvariant db → achInvariant (checkAchievements u db mid p).1) ∧
    (∀ (u : TUser) (db : DB) (mid : String) (p : ℤ),
      achInvariant db →
        checkAchievements u (checkAchievements u db mid p).1 mid p =
          ((checkAchievements u db mid p).1, [])) := by
  refine ⟨fun db u p c h => awardIfNew_noop u p db c h,
          fun u db mid p h => runAwards_inv u p _ db h, ?_⟩
  intro u db mid p h
  show runAwards u p (checkAchievements u db mid p).1
      (achievementsToCheck u (checkAchievements u db mid p).1 mid p) = _
  rw [achievementsToCheck_congr u mid p db (checkAchievements u db mid p).1
      (runAwards_fst_student_progress u p _ db)]
  exact runAwards_second_pass u p (achievementsToCheck u db mid p) db h

/-- The singleton fixture database satisfies the invariant. -/
theorem achInvariant_dbAch : achInvariant dbAch := by
  intro uid aid
  simp only [dbAch, db0, countA, List.filter]
  split <;> simp

/-- Witness for C7: Alice already owns `first_activity`; a second award is a
no-op, and a full second evaluation of `checkAchievements` changes nothing. -/
theorem achievement_award_idempotent_witness :
    countA dbAch.user_achievements "alice-id" "first_activity" = 1 ∧
    awardIfNew alice 80 dbAch candFirst = (dbAch, false) ∧
    achInvariant (checkAchievements alice dbAch "dyslexia" 80).1 ∧
    checkAchievements alice (checkAchievements alice dbAch "dyslexia" 80).1 "dyslexia" 80 =
      ((checkAchievements alice dbAch "dyslexia" 80).1, []) := by
  have hcnt : countA dbAch.user_achievements "alice-id" "first_activity" = 1 := by decide
  exact ⟨hcnt,
    achievement_award_idempotent.1 dbAch alice 80 candFirst hcnt,
    achievement_award_idempotent.2.1 alice dbAch "dyslexia" 80 achInvariant_dbAch,
    achievement_award_idempotent.2.2 alice dbAch "dyslexia" 80 achInvariant_dbAch⟩

/-- C6. Recording an attempt with no resolvable identity (guest mode) leaves
the persistence state unchanged, shows only the local feedback toast, and
returns `{success: true, guest: true}` rather than an error. -/
theorem guest_mode_spec (env : Env) (db : DB) (a : ActivityInput)
    (h1 : ¬ a.moduleId = "") (h2 : ¬ a.activityId = "") :
    saveActivity none env db a =
      { result := { success := true, guest := some true, error := none,
                    percentage := none, pointsAwarded := none, data := none }
        db := db
        toasts := [localFeedbackMsg] } := by
  simp [saveActivity, h1, h2]

/-- Filtering a name out removes it from containment. -/
theorem contains_filter_ne (l : List String) (nm : String) :
    (l.filter (fun x => !(x == nm))).contains nm = false := by
  induction l with
  | nil => rfl
  | cons x xs ih =>
    cases hx : (x == nm) with
    | true =>
      simp only [List.filter, hx]
      exact ih
    | false =>
      have hx' : ¬ nm = x := fun he => by simp [he] at hx
      simp [List.filter, hx, List.contains_cons, ih, hx']

/-- Filtering a name out twice equals filtering it once. -/
theorem filter_ne_idem (l : List String) (nm : String) :
    (l.filter (fun x => !(x == nm))).filter (fun x => !(x == nm)) =
      l.filter (fun x => !(x == nm)) := by
  induction l with
  | nil => rfl
  | cons x xs ih =>
    cases hx : (x == nm) with
    | true => simp [List.filter, hx, ih]
    | false => simp [List.filter, hx, ih]

/-- A freshly appended channel name is contained in the open set. -/
theorem contains_append_self (l : List String) (nm : String) :
    (l ++ [nm]).contains nm = true := by
  induction l with
  | nil => simp [List.contains_cons]
  | cons x xs ih => simp [List.contains_cons, ih]

/-- C8 counterexample: a table-change subscription opens its channel directly
on the provider client, so the channel is never in the RealtimeManager's
process-wide registry — the returned unsubscribe has nothing to remove from
it (the registry is empty before and after). -/
theorem table_unsub_registry_counterexample :
    (tableSubscribe rtEmpty "student_progress" 42).2 = "table:student_progress:42" ∧
    (tableSubscribe rtEmpty "student_progress" 42).1.managerChannels = [] ∧
    ((tableSubscribe rtEmpty "student_progress" 42).1.managerChannels.contains
      (tableSubscribe rtEmpty "student_progress" 42).2) = false ∧
    (tableUnsubscribe (tableSubscribe rtEmpty "student_progress" 42).1
      (tableSubscribe rtEmpty "student_progress" 42).2).managerChannels = [] := by
  exact ⟨rfl, rfl, rfl, rfl⟩

/-- C8 amended. The unsubscribe closure returned by a table-change
subscription closes the channel at the provider (and a second call is a
safe no-op), but the RealtimeManager registry is never involved: the channel
is not registered there and the closure leaves the registry unchanged.
Registry removal is `RealtimeManager.unsubscribe`, which is idempotent. -/
theorem table_unsub_amended (s : RtState) (table : String) (ts : ℕ) :
    ((tableSubscribe s table ts).1.managerChannels = s.managerChannels) ∧
    ((tableSubscribe s table ts).1.client.openChannels.contains
      (tableSubscribe s table ts).2 = true) ∧
    ((tableUnsubscribe (tableSubscribe s table ts).1
      (tableSubscribe s table ts).2).managerChannels = s.managerChannels) ∧
    ((tableUnsubscribe (tableSubscribe s table ts).1
      (tableSubscribe s table ts).2).client.openChannels.contains
      (tableSubscribe s table ts).2 = false) ∧
    (tableUnsubscribe
      (tableUnsubscribe (tableSubscribe s table ts).1 (tableSubscribe s table ts).2)
      (tableSubscribe s table ts).2 =
      tableUnsubscribe (tableSubscribe s table ts).1 (tableSubscribe s table ts).2) ∧
    (∀ nm, managerUnsubscribe (managerUnsubscribe s nm) nm = managerUnsubscribe s nm) := by
  refine ⟨rfl, ?_, rfl, ?_, ?_, ?_⟩
  · exact contains_append_self s.client.openChannels _
  · exact contains_filter_ne _ _
  · simp [tableUnsubscribe, channelUnsub, filter_ne_idem]
  · intro nm
    by_cases h : s.managerChannels.contains nm = true
    · unfold managerUnsubscribe
      rw [if_pos h]
      have h2 : ¬ ((s.managerChannels.filter (fun x => !(x == nm))).contains nm = true) := by
        rw [contains_filter_ne]
        exact Bool.false_ne_true
      rw [if_neg h2]
    · unfold managerUnsubscribe
      rw [if_neg h, if_neg h]

/-- C9. The two recording paths disagree on merge policy: the modules path
stores running maxima (stored values never decrease, `attempts` increments),
while the tracker path overwrites the stored row with the new attempt — so on
a re-attempt with a lower score the two paths store different values. -/
theorem merge_policy_divergence (u : TUser) (a : ActivityInput) (prior : ModProgressRecord)
    (maxScore duration : ℚ) :
    (prior.completion_percentage ≤
      (mkModulesRecord u.id a.moduleId a.activityId (some prior)
        a.score maxScore duration).completion_percentage) ∧
    (prior.best_score ≤
      (mkModulesRecord u.id a.moduleId a.activityId (some prior)
        a.score maxScore duration).best_score) ∧
    ((mkModulesRecord u.id a.moduleId a.activityId (some prior)
        a.score maxScore duration).attempts = prior.attempts + 1) ∧
    ((mkProgressRecord u a).score = a.score) ∧
    (∀ l : List ProgressRecord,
      findProgress (upsertProgress l (mkProgressRecord u a)) u.id a.moduleId a.activityId =
        some (mkProgressRecord u a)) ∧
    (a.score < prior.best_score →
      (mkModulesRecord u.id a.moduleId a.activityId (some prior)
        a.score maxScore duration).best_score = prior.best_score ∧
      (mkModulesRecord u.id a.moduleId a.activityId (some prior)
        a.score maxScore duration).best_score ≠ (mkProgressRecord u a).score) := by
  have hpb : priorBest (some prior) = prior.best_score := rfl
  refine ⟨le_max_right _ _, le_max_right _ _, rfl, rfl,
    fun l => findProgress_upsertProgress l (mkProgressRecord u a), fun h => ⟨?_, ?_⟩⟩
  · show max a.score (priorBest (some prior)) = prior.best_score
    rw [hpb, max_eq_right h.le]
  · show max a.score (priorBest (some prior)) ≠ a.score
    rw [hpb, max_eq_right h.le]
    exact ne_of_gt h

/-- Witness for C9: Alice re-attempts letter-match scoring 50 after a best of
90 — the modules path keeps 90, the tracker path stores 50. -/
theorem merge_policy_divergence_witness :
    (act 50).score < priorRec.best_score ∧
    (mkModulesRecord "alice-id" "dyslexia" "letter-match" (some priorRec)
      (act 50).score 100 90).best_score = priorRec.best_score ∧
    (mkModulesRecord "alice-id" "dyslexia" "letter-match" (some priorRec)
      (act 50).score 100 90).best_score ≠ (mkProgressRecord alice (act 50)).score := by
  have h : (act 50).score < priorRec.best_score := by norm_num [act, priorRec]
  have hd := (merge_policy_divergence alice (act 50) priorRec 100 90).2.2.2.2.2 h
  exact ⟨h, hd.1, hd.2⟩

/-- C10 counterexample: `completeActivity` indeed has no upper clamp, but a
score of 1003/1000 rounds to exactly 100 — not strictly above 100 — and a
percentage of 101 yields base points of exactly 100, which do not exceed
100 (here with duration 150, so no quick-completion bonus). -/
theorem modules_percentage_counterexample :
    (1000 : ℚ) < 1003 ∧ (0 : ℚ) < 1000 ∧
    modulesPercentage 1003 1000 = 100 ∧
    ¬ (100 < modulesPercentage 1003 1000) ∧
    modulesPercentage 101 100 = 101 ∧
    calculatePoints 101 150 = 100 ∧
    ¬ (100 < calculatePoints 101 150) := by
  have h1 : modulesPercentage 1003 1000 = 100 := by
    norm_num [modulesPercentage, jsRound]
  have h2 : modulesPercentage 101 100 = 101 := by
    norm_num [modulesPercentage, jsRound]
  have h3 : calculatePoints 101 150 = 100 := by
    norm_num [calculatePoints, jsRound]
  refine ⟨by norm_num, by norm_num, h1, ?_, h2, h3, ?_⟩
  · rw [h1]; omega
  · rw [h3]; omega

/-- C10 amended. `completeActivity` computes the percentage with no upper
clamp: for `score ≥ maxScore > 0` the stored percentage is at least 100,
and strictly above 100 as soon as `score/maxScore*100 ≥ 100.5`; the tracker
path clamps the same input to exactly 100.  The unclamped percentage is fed
to `calculatePoints`, whose base points exceed 100 once the percentage
reaches 105. -/
theorem modules_percentage_unclamped (score maxScore : ℚ)
    (hm : 0 < maxScore) (hs : maxScore ≤ score) :
    100 ≤ modulesPercentage score maxScore ∧
    (201 * maxScore ≤ 200 * score → 101 ≤ modulesPercentage score maxScore) ∧
    trackerPercentage score maxScore = 100 ∧
    (∀ (p : ℤ) (d : ℚ), 105 ≤ p → 100 < calculatePoints (p : ℚ) d) ∧
    modulesPercentage 150 100 = 150 ∧ calculatePoints 150 300 = 150 := by
  have hq : (100 : ℚ) ≤ score / maxScore * 100 := by
    rw [div_mul_eq_mul_div, le_div_iff₀ hm]; nlinarith
  have h100 : (100 : ℤ) ≤ modulesPercentage score maxScore := by
    calc (100 : ℤ) = jsRound 100 := jsRound_hundred.symm
      _ ≤ jsRound (score / maxScore * 100) := jsRound_le_jsRound hq
  refine ⟨h100, ?_, ?_, ?_, by norm_num [modulesPercentage, jsRound],
    by norm_num [calculatePoints, jsRound]⟩
  · intro h201
    have hq2 : (201 : ℚ) / 2 ≤ score / maxScore * 100 := by
      rw [div_mul_eq_mul_div, le_div_iff₀ hm]; nlinarith
    exact Int.le_floor.mpr (by push_cast; linarith)
  · exact min_eq_left h100
  · intro p d hp
    have hpq : (105 : ℚ) ≤ (p : ℚ) := by exact_mod_cast hp
    have hne : ¬ ((p : ℚ) = 100) := fun hq' => by
      have : p = 100 := by exact_mod_cast hq'
      omega
    have hbase : (11 : ℤ) ≤ jsRound ((p : ℚ) / 10) :=
      Int.le_floor.mpr (by push_cast; linarith)
    simp only [calculatePoints, if_neg hne]
    split <;> omega

/-- Witness for C10 amended at `score = 150, maxScore = 100`, also
instantiating the inner bounds (201·100 ≤ 200·150, and points at
percentage 110). -/
theorem modules_percentage_unclamped_witness :
    (0 : ℚ) < 100 ∧ (100 : ℚ) ≤ 150 ∧
    100 ≤ modulesPercentage 150 100 ∧
    101 ≤ modulesPercentage 150 100 ∧
    trackerPercentage 150 100 = 100 ∧
    100 < calculatePoints ((110 : ℤ) : ℚ) 200 := by
  have h := modules_percentage_unclamped 150 100 (by norm_num) (by norm_num)
  exact ⟨by norm_num, by norm_num, h.1, h.2.1 (by norm_num), h.2.2.1,
    h.2.2.2.1 110 200 (by norm_num)⟩

/-- Witness for C6: a concrete guest attempt. -/
theorem guest_mode_spec_witness :
    saveActivity none envOk db0 (act 80) =
      { result := { success := true, guest := some true, error := none,
                    percentage := none, pointsAwarded := none, data := none }
        db := db0
        toasts := [localFeedbackMsg] } :=
  guest_mode_spec envOk db0 (act 80) (by decide) (by decide)

end Cogno

